import Mathlib

set_option maxRecDepth 8000

/-!
Verification of the agent demonstration scripts in `agents-on-docker`.

The repository consists of four near-duplicate Python scripts:
- `agent-docker-v7/agent.py` (namespace `AgentV7`)
- `agent-docker-v7/simple_agent.py` (namespace `SimpleAgent`)
- `examples/agent-with-mcp/agent-docker-v7/agent.py` (namespace `McpV7`)
- `examples/basic-agent/agent-docker-v1/agent.py` (namespace `BasicV1`)

Each script selects a model configuration, registers tools and performs one
agent invocation.  The pure fragments (model selection, filename
sanitization, confirmation strings) are embedded directly; the effectful
fragments (file writes, exception flow, the `with` block around the MCP
client) are embedded as explicit state passing over a filesystem map, an
`Except` value for Python exceptions, and event traces.
-/

namespace AgentsOnDocker

/-! ## Python string and path primitives -/

/-- ASCII whitespace recognized by Python's `str.strip()` / `str.isspace()`. -/
def pyIsSpace (c : Char) : Bool :=
  c = ' ' || c = '\t' || c = '\n' || c = '\x0b' || c = '\x0c' || c = '\r'

/-- `str.strip()` on a character list: drop whitespace from both ends. -/
def pyStripChars (l : List Char) : List Char :=
  ((l.dropWhile pyIsSpace).reverse.dropWhile pyIsSpace).reverse

/-- Python `str.strip()` (ASCII whitespace range). -/
def pyStrip (s : String) : String :=
  ⟨pyStripChars s.data⟩

/-- Truthiness of an `Optional[str]` in Python: `None` and `""` are falsy. -/
def pyTruthy : Option String → Bool
  | none => false
  | some s => s != ""

/-- A path is absolute when its first character is `/`. -/
def pyIsAbsolute (name : String) : Bool :=
  match name.data with
  | [] => false
  | c :: _ => c = '/'

/-- `pathlib.Path` division `base / name`: an absolute right operand
replaces the base, otherwise the name is appended verbatim. -/
def pyPathJoin (base name : String) : String :=
  if pyIsAbsolute name then name else base ++ "/" ++ name

/-- `sub` occurs as a contiguous substring of `s`. -/
def StrContains (s sub : String) : Prop :=
  sub.data <:+: s.data

/-! ## Filesystem model

A filesystem is a partial map from absolute path to text content; Python's
`open(path, "w")` followed by writes replaces the mapped content wholesale. -/

/-- A filesystem as a partial map from absolute path to file content. -/
def FS : Type := String → Option String

/-- `open(path, "w")` plus the writes performed on the handle: the file's
content is replaced by `content` (and created if absent). -/
def writeFile (fs : FS) (path content : String) : FS :=
  fun p => if p = path then some content else fs p

/-- Injected filesystem faults for a run of a save tool: an error raised by
`out_dir.mkdir(exist_ok=True)` and one raised by the `open`/`write` of the
target file (`none` = the operation succeeds). -/
structure FsFaults where
  mkdirErr : Option String
  writeErr : Option String
deriving Repr, DecidableEq

/-! ## Model configurations -/

/-- Sampling parameters passed in the `params={...}` dictionary of
`OpenAIModel` (temperature as an exact rational, `max_tokens`). -/
structure SamplingParams where
  temperature : ℚ
  max_tokens : Nat
deriving Repr, DecidableEq

/-- The `client_args` dictionary of `OpenAIModel`: an `api_key` and an
optional `base_url` (absent in the cloud branches). -/
structure ClientArgs where
  api_key : String
  base_url : Option String
deriving Repr, DecidableEq

/-- The observable configuration of a constructed `OpenAIModel`:
client arguments, `model_id`, and the optional `params` dictionary. -/
structure OpenAIModelCfg where
  client_args : ClientArgs
  model_id : String
  params : Option SamplingParams
deriving Repr, DecidableEq

/-- The condition of `if OPENAI_API_KEY and OPENAI_API_KEY != "sk-insecure"`
shared by both `get_model` implementations: the key is set, non-empty and
different from the placeholder. -/
def cloudSelected : Option String → Bool
  | none => false
  | some k => k != "" && k != "sk-insecure"

/-! ## Agent construction -/

/-- A tool reference in an agent's tool list: one of the locally defined
tools, or a remotely discovered MCP tool forwarded as an opaque descriptor. -/
inductive Tool
  | save_definition
  | simple_search
  | save_file
  | current_time
  | mcp (name : String)
deriving Repr, DecidableEq

/-- The observable arguments of an `Agent(...)` construction: model
configuration, combined tool list, and system prompt. -/
structure AgentCfg where
  model : OpenAIModelCfg
  tools : List Tool
  system_prompt : String
deriving Repr, DecidableEq

/-! ## `agent-docker-v7/agent.py` -/

namespace AgentV7

/-- `get_model` of `agent-docker-v7/agent.py`, as a function of the
module-level globals `OPENAI_API_KEY`, `OPENAI_MODEL_NAME`,
`MODEL_RUNNER_URL`, `MODEL_RUNNER_MODEL`.  The cloud branch passes no
`params`; the local branch passes `temperature 0.0` and `max_tokens 512`. -/
def get_model (OPENAI_API_KEY : Option String)
    (OPENAI_MODEL_NAME MODEL_RUNNER_URL MODEL_RUNNER_MODEL : String) :
    OpenAIModelCfg :=
  if cloudSelected OPENAI_API_KEY then
    ⟨⟨OPENAI_API_KEY.getD "", none⟩, OPENAI_MODEL_NAME, none⟩
  else
    ⟨⟨"sk-insecure", some MODEL_RUNNER_URL⟩, MODEL_RUNNER_MODEL,
      some ⟨0, 512⟩⟩

/-- The fixed output directory `Path("/app/definitions")`. -/
def defsDir : String := "/app/definitions"

/-- The file name `f"{word}.txt"` — the word is used verbatim. -/
def fileName (word : String) : String := word ++ ".txt"

/-- `file_path = out_dir / f"{word}.txt"`. -/
def file_path (word : String) : String :=
  pyPathJoin defsDir (fileName word)

/-- The text written by `save_definition`:
`f.write(definition.strip() + "\n")`. -/
def fileContent (definition : String) : String :=
  pyStrip definition ++ "\n"

/-- The filesystem effect of `save_definition word definition`. -/
def save_fs (fs : FS) (word definition : String) : FS :=
  writeFile fs (file_path word) (fileContent definition)

/-- The return value of a successful `save_definition`. -/
def confirmation (word : String) : String :=
  "The definition for '" ++ word ++
    "' has been found and saved. Mission Completed! Stop"

/-- The exception flow of `save_definition`: there is no `try`/`except`, so
a fault of `mkdir` or of the write raises to the caller. -/
def save_definition_run (f : FsFaults) (word definition : String) :
    Except String String :=
  match f.mkdirErr with
  | some e => Except.error e
  | none =>
    match f.writeErr with
    | some e => Except.error e
    | none =>
      let _ := fileContent definition
      Except.ok (confirmation word)

/-- The system prompt of `main`, with the `QUESTION` f-string hole. -/
def system_prompt (QUESTION : String) : String :=
  "You are a helpful assistant. Your task is to define a term by searching for it, saving the definition, and then confirming completion.\n\n## Example:\n\nQuestion: \"What is photosynthesis?\"\n\nThought: The user is asking for the definition of \"photosynthesis\". I will use the search tool one time to find it.\nTool Call: `search(query=\"photosynthesis\")`\nThought: I have the definition from the search result. I will now save it using the save_definition tool.\nTool Call: `save_definition(\"Photosynthesis\", \"The process by which green plants use sunlight to synthesize foods from carbon dioxide and water.\")`\nThought: The definition has been saved successfully. I will now inform the user that the task is complete.\nSTOP! EXIT!\n---\n\n## Your Turn:\n\nQuestion: " ++ QUESTION

/-- The `Agent(...)` construction of `main`:
`tools=mcp_tools + [save_definition]`. -/
def mkAgent (model : OpenAIModelCfg) (mcp_tools : List Tool)
    (QUESTION : String) : AgentCfg :=
  ⟨model, mcp_tools ++ [Tool.save_definition], system_prompt QUESTION⟩

end AgentV7

/-! ## `agent-docker-v7/simple_agent.py` -/

namespace SimpleAgent

/-- The fixed output directory `Path("/app/definitions")`. -/
def defsDir : String := "/app/definitions"

/-- `file_path = out_dir / filename` — the filename is used verbatim. -/
def file_path (filename : String) : String :=
  pyPathJoin defsDir filename

/-- The filesystem effect of `save_file filename content`:
`f.write(content)` with no formatting. -/
def save_fs (fs : FS) (filename content : String) : FS :=
  writeFile fs (file_path filename) content

/-- The return value of a successful `save_file`:
`f"Saved to {file_path}"`. -/
def confirmation (filename : String) : String :=
  "Saved to " ++ file_path filename

end SimpleAgent

/-! ## `examples/agent-with-mcp/agent-docker-v7/agent.py` -/

namespace McpV7

/-- `get_model` of the MCP variant.  Both branches pass `temperature 0.1`
and `max_tokens 1000`. -/
def get_model (OPENAI_API_KEY : Option String)
    (OPENAI_MODEL_NAME MODEL_RUNNER_URL MODEL_RUNNER_MODEL : String) :
    OpenAIModelCfg :=
  if cloudSelected OPENAI_API_KEY then
    ⟨⟨OPENAI_API_KEY.getD "", none⟩, OPENAI_MODEL_NAME,
      some ⟨(1 : ℚ)/10, 1000⟩⟩
  else
    ⟨⟨"sk-insecure", some MODEL_RUNNER_URL⟩, MODEL_RUNNER_MODEL,
      some ⟨(1 : ℚ)/10, 1000⟩⟩

/-- The character predicate of the sanitization comprehension in
`save_definition`: `c.isalnum() or c in (' ', '-', '_')`.  Alphanumeric is
modelled over the ASCII range. -/
def keepChar (c : Char) : Bool :=
  c.isAlphanum || c = ' ' || c = '-' || c = '_'

/-- `safe_word = "".join(c for c in word if ...).strip()` from
`save_definition` of the MCP variant. -/
def safe_word (word : String) : String :=
  pyStrip ⟨word.data.filter keepChar⟩

/-- The name of the written file: `f"{safe_word}.txt"`. -/
def fileName (word : String) : String :=
  safe_word word ++ ".txt"

/-- The fixed output directory `Path("/app/definitions")`. -/
def defsDir : String := "/app/definitions"

/-- `file_path = out_dir / f"{safe_word}.txt"`. -/
def file_path (word : String) : String :=
  pyPathJoin defsDir (fileName word)

/-- The `"=" * (len(word) + 15)` underline written below the heading. -/
def eqLine (word : String) : String :=
  ⟨List.replicate (word.length + 15) '='⟩

/-- The full text written by the three `f.write` calls of
`save_definition`. -/
def fileContent (word definition : String) : String :=
  "Definition of '" ++ word ++ "':\n" ++ eqLine word ++ "\n\n" ++
    pyStrip definition ++ "\n"

/-- The filesystem effect of `save_definition word definition`. -/
def save_fs (fs : FS) (word definition : String) : FS :=
  writeFile fs (file_path word) (fileContent word definition)

/-- The return value of a successful `save_definition`, embedding
`file_path.name`. -/
def confirmation (word : String) : String :=
  "✅ The definition for '" ++ word ++
    "' has been found and saved to " ++ fileName word ++
    ". Mission Completed!"

/-- The string returned by the `except` handler of `save_definition`. -/
def errorMessage (word e : String) : String :=
  "❌ Error saving definition for '" ++ word ++ "': " ++ e

/-- The `try` body of `save_definition`: `mkdir`, then writes; a fault of
either raises. -/
def save_definition_body (f : FsFaults) (word definition : String) :
    Except String String :=
  match f.mkdirErr with
  | some e => Except.error e
  | none =>
    match f.writeErr with
    | some e => Except.error e
    | none =>
      let _ := fileContent word definition
      Except.ok (confirmation word)

/-- The whole of `save_definition`: the `try` body with
`except Exception as e` converting any exception into the formatted error
string, which is returned normally. -/
def save_definition_run (f : FsFaults) (word definition : String) :
    Except String String :=
  match save_definition_body f word definition with
  | Except.ok s => Except.ok s
  | Except.error e => Except.ok (errorMessage word e)

/-- The system prompt of `main`, with the `QUESTION` f-string hole. -/
def system_prompt (QUESTION : String) : String :=
  "You are an intelligent research assistant with access to external tools through MCP Gateway.\n\nYour task is to research and define terms by:\n1. Using the search tool to find accurate, comprehensive information\n2. Synthesizing the information into a clear, well-structured definition\n3. Saving the definition using the save_definition tool\n4. Confirming completion to the user\n\n## Example Workflow:\n\nQuestion: \"What is photosynthesis?\"\n\n1. Search for information: search(query=\"photosynthesis definition biology\")\n2. Analyze and synthesize the results\n3. Save the definition: save_definition(\"Photosynthesis\", \"comprehensive definition here\")\n4. Confirm completion\n\n## Your Task:\nQuestion: " ++ QUESTION ++ "\n\nPlease research this term and provide a comprehensive definition."

/-- The `Agent(...)` construction of `main`:
`all_tools = mcp_tools + [save_definition]`. -/
def mkAgent (model : OpenAIModelCfg) (mcp_tools : List Tool)
    (QUESTION : String) : AgentCfg :=
  ⟨model, mcp_tools ++ [Tool.save_definition], system_prompt QUESTION⟩

/-- Steps of `main` in the MCP variant, all inside its single
`try ... except Exception` block. -/
inductive MainStep
  | getModel | connect | discover | createAgent | invoke
deriving Repr, DecidableEq

/-- Running `main` of the MCP variant under an optional injected failure
(failing step and exception text): the `except Exception` handler prints
the troubleshooting hint list and re-raises (`raise`).  The result is the
exception escaping `main` (if any) paired with whether the hint list was
printed. -/
def main_run : Option (MainStep × String) → Except String Unit × Bool
  | none => (Except.ok (), false)
  | some (_, e) => (Except.error e, true)

end McpV7

/-! ## `examples/basic-agent/agent-docker-v1/agent.py` -/

namespace BasicV1

/-- Steps of `main` in the basic v1 variant: model and agent construction
happen outside any handler; only the invocation (and the printing of its
answer) is inside `try ... except Exception as e: print(...)`, which does
not re-raise. -/
inductive MainStep
  | constructModel | constructAgent | invoke
deriving Repr, DecidableEq

/-- Running `main` of the basic v1 variant under an optional injected
failure: a failure of the invocation is caught and only printed (the
`Bool` component), so nothing escapes `main`; a failure of the
construction steps escapes unhandled. -/
def main_run : Option (MainStep × String) → Except String Unit × Bool
  | none => (Except.ok (), false)
  | some (MainStep.invoke, _) => (Except.ok (), true)
  | some (_, e) => (Except.error e, false)

end BasicV1

/-- Process exit status determined by the exception escaping `main` when
the script runs as `__main__`: the interpreter exits non-zero exactly when
an exception reaches the process boundary. -/
def exitStatus : Except String Unit → Nat
  | Except.ok _ => 0
  | Except.error _ => 1

/-! ## Connection lifecycle of the `with mcp_client:` block -/

namespace ConnLifecycle

/-- Connection-relevant events of `main`'s `with mcp_client:` block, shared
by `agent-docker-v7/agent.py` and the MCP variant: `__enter__` of the MCP
client, the single `list_tools_sync` discovery call, the construction of
the agent, the single invocation, and `__exit__`. -/
inductive Ev
  | acquire | discover | createAgent | invoke | release
deriving Repr, DecidableEq

/-- A point of the with-block body at which an exception may be raised. -/
inductive FailAt
  | discover | createAgent | invoke
deriving Repr, DecidableEq

/-- Events of the with-block body, cut short at the failing step (the
failing call itself appears: it starts, then raises). -/
def bodyEvents : Option FailAt → List Ev
  | some FailAt.discover => [Ev.discover]
  | some FailAt.createAgent => [Ev.discover, Ev.createAgent]
  | some FailAt.invoke => [Ev.discover, Ev.createAgent, Ev.invoke]
  | none => [Ev.discover, Ev.createAgent, Ev.invoke]

/-- Python `with` semantics: `__enter__`, then the body, then `__exit__`
unconditionally — also when the body raises (the exception is re-raised
after `__exit__`, whose return value is falsy here). -/
def withTrace (body : List Ev) : List Ev :=
  Ev.acquire :: body ++ [Ev.release]

/-- The connection trace of `main` under an optional injected failure. -/
def mainTrace (fp : Option FailAt) : List Ev :=
  withTrace (bodyEvents fp)

end ConnLifecycle

/-! ## Path resolution (for the unsanitized save tools) -/

/-- Split a character list at `/` separators. -/
def splitSlashAux : List Char → List Char → List (List Char)
  | [], cur => [cur.reverse]
  | c :: rest, cur =>
    if c = '/' then cur.reverse :: splitSlashAux rest []
    else splitSlashAux rest (c :: cur)

/-- The non-empty `/`-separated components of a path. -/
def pathComponents (p : String) : List String :=
  ((splitSlashAux p.data []).map fun l => (⟨l⟩ : String)).filter
    fun s => s != ""

/-- Resolve `.` and `..` segments of an absolute path: the filesystem's
view of where the path actually lands. -/
def resolveComps (cs : List String) : List String :=
  cs.foldl
    (fun acc c =>
      if c = "." then acc
      else if c = ".." then acc.dropLast
      else acc ++ [c]) []

/-- The path `p` denotes a location inside the directory `dir`. -/
def IsUnder (dir p : String) : Prop :=
  pathComponents dir <+: resolveComps (pathComponents p)

/-! ## Helper lemmas -/

/-- Helper: the head of `dropWhile p` never satisfies `p`. -/
theorem head?_dropWhile_false {α : Type} {p : α → Bool} {l : List α}
    {c : α} (h : (l.dropWhile p).head? = some c) : p c = false := by
  have hd := List.head?_dropWhile_not p l
  rw [h] at hd
  exact hd

/-- Helper: a `some` value of `getLast?` survives `dropWhile` (which only
removes a prefix). -/
theorem getLast?_dropWhile_some {α : Type} {p : α → Bool} {l : List α}
    {c : α} (h : (l.dropWhile p).getLast? = some c) :
    l.getLast? = some c := by
  obtain ⟨t, ht⟩ := List.dropWhile_suffix (l := l) p
  rw [← ht, List.getLast?_append, h]
  rfl

/-- Helper: stripping only removes characters, it never adds any. -/
theorem mem_of_mem_pyStripChars {l : List Char} {c : Char}
    (h : c ∈ pyStripChars l) : c ∈ l := by
  unfold pyStripChars at h
  rw [List.mem_reverse] at h
  have h2 := List.dropWhile_subset pyIsSpace h
  rw [List.mem_reverse] at h2
  exact List.dropWhile_subset pyIsSpace h2

/-- Helper: the first character of a stripped list is not whitespace. -/
theorem pyStripChars_head?_not_space {l : List Char} {c : Char}
    (h : (pyStripChars l).head? = some c) : pyIsSpace c = false := by
  unfold pyStripChars at h
  rw [List.head?_reverse] at h
  have h2 := getLast?_dropWhile_some h
  rw [List.getLast?_reverse] at h2
  exact head?_dropWhile_false h2

/-- Helper: the last character of a stripped list is not whitespace. -/
theorem pyStripChars_getLast?_not_space {l : List Char} {c : Char}
    (h : (pyStripChars l).getLast? = some c) : pyIsSpace c = false := by
  unfold pyStripChars at h
  rw [List.getLast?_reverse] at h
  exact head?_dropWhile_false h

/-- Helper: two consecutive writes to the same path behave as the second
write alone. -/
theorem writeFile_writeFile (fs : FS) (path c1 c2 p : String) :
    writeFile (writeFile fs path c1) path c2 p =
      if p = path then some c2 else fs p := by
  by_cases h : p = path <;> simp [writeFile, h]

/-! ## Claim theorems -/

/-- C1: for every value of `OPENAI_API_KEY`, both `get_model` functions take
the cloud branch iff the key is present, non-empty and not `"sk-insecure"`;
in that case the configuration carries the supplied key and the cloud model
id.  Otherwise (unset, empty, or the placeholder) both return the local
configuration: `api_key "sk-insecure"`, `base_url` the local endpoint, the
local model id.  The empty string behaves exactly as an absent key. -/
theorem C1_model_selection (key : Option String)
    (omn mru mrm : String) :
    (cloudSelected key = true ↔
      ∃ k, key = some k ∧ k ≠ "" ∧ k ≠ "sk-insecure") ∧
    (∀ k, key = some k → k ≠ "" → k ≠ "sk-insecure" →
      AgentV7.get_model key omn mru mrm = ⟨⟨k, none⟩, omn, none⟩ ∧
      McpV7.get_model key omn mru mrm =
        ⟨⟨k, none⟩, omn, some ⟨(1 : ℚ)/10, 1000⟩⟩) ∧
    ((key = none ∨ key = some "" ∨ key = some "sk-insecure") →
      AgentV7.get_model key omn mru mrm =
        ⟨⟨"sk-insecure", some mru⟩, mrm, some ⟨0, 512⟩⟩ ∧
      McpV7.get_model key omn mru mrm =
        ⟨⟨"sk-insecure", some mru⟩, mrm, some ⟨(1 : ℚ)/10, 1000⟩⟩) := by
  refine ⟨?_, ?_, ?_⟩
  · cases key with
    | none => simp [cloudSelected]
    | some k =>
      simp only [cloudSelected, Bool.and_eq_true, bne_iff_ne, ne_eq]
      constructor
      · rintro ⟨h1, h2⟩; exact ⟨k, rfl, h1, h2⟩
      · rintro ⟨k', hk', h1, h2⟩
        cases Option.some.inj hk'
        exact ⟨h1, h2⟩
  · rintro k rfl h1 h2
    have hc : cloudSelected (some k) = true := by
      simp [cloudSelected, h1, h2]
    constructor
    · simp [AgentV7.get_model, hc, Option.getD]
    · simp [McpV7.get_model, hc, Option.getD]
  · rintro (rfl | rfl | rfl) <;>
      exact ⟨by simp [AgentV7.get_model, cloudSelected],
             by simp [McpV7.get_model, cloudSelected]⟩

/-- Witness for C1 at concrete inputs: a real key selects the cloud branch,
and the placeholder selects the local branch. -/
theorem C1_model_selection_witness :
    AgentV7.get_model (some "sk-abc") "gpt-4o-mini" "http://u" "ai/qwen3" =
      ⟨⟨"sk-abc", none⟩, "gpt-4o-mini", none⟩ ∧
    McpV7.get_model (some "sk-insecure") "gpt-4o-mini" "http://u" "ai/m" =
      ⟨⟨"sk-insecure", some "http://u"⟩, "ai/m",
        some ⟨(1 : ℚ)/10, 1000⟩⟩ :=
  ⟨((C1_model_selection (some "sk-abc") "gpt-4o-mini" "http://u"
      "ai/qwen3").2.1 "sk-abc" rfl (by decide) (by decide)).1,
   ((C1_model_selection (some "sk-insecure") "gpt-4o-mini" "http://u"
      "ai/m").2.2 (Or.inr (Or.inr rfl))).2⟩

/-- C2: the MCP variant's save tool derives the filename base by removing
every character outside {alphanumeric, space, hyphen, underscore} and then
stripping whitespace from both ends; every surviving character is in the
allowed set, the result has no leading or trailing whitespace, the input
`"C++/C#"` yields the base `"CC"`, and the written path is the sanitized
base plus `".txt"` joined under the fixed output directory. -/
theorem C2_filename_sanitization (word : String) :
    (McpV7.safe_word word).data =
      pyStripChars (word.data.filter McpV7.keepChar) ∧
    (∀ c, c ∈ (McpV7.safe_word word).data → McpV7.keepChar c = true) ∧
    (∀ c, ((McpV7.safe_word word).data.head? = some c →
        pyIsSpace c = false) ∧
      ((McpV7.safe_word word).data.getLast? = some c →
        pyIsSpace c = false)) ∧
    McpV7.safe_word "C++/C#" = "CC" ∧
    McpV7.file_path word =
      pyPathJoin "/app/definitions" (McpV7.safe_word word ++ ".txt") := by
  refine ⟨rfl, ?_, ?_, by decide, rfl⟩
  · intro c hc
    have h1 : c ∈ word.data.filter McpV7.keepChar :=
      mem_of_mem_pyStripChars hc
    exact (List.mem_filter.mp h1).2
  · intro c
    exact ⟨fun h => pyStripChars_head?_not_space h,
           fun h => pyStripChars_getLast?_not_space h⟩

/-- Witness for C2 at the concrete inputs of the spec's example. -/
theorem C2_filename_sanitization_witness :
    McpV7.keepChar 'C' = true ∧ McpV7.safe_word "C++/C#" = "CC" :=
  ⟨(C2_filename_sanitization "C++/C#").2.1 'C' (by decide),
   (C2_filename_sanitization "C++/C#").2.2.2.1⟩

/-- C9 counterexample: in `agent-docker-v7/agent.py`, a valid key takes the
cloud branch, whose `OpenAIModel(...)` call passes no `params` at all, so
the returned configuration carries no sampling parameters. -/
theorem C9_counterexample :
    (AgentV7.get_model (some "sk-realkey") "gpt-4o-mini" "http://u"
      "ai/qwen3").params = none := rfl

/-- C9 amended: the MCP variant's `get_model` returns sampling parameters
(temperature and max output length) in both branches, and the plain v7
variant does so only in the local branch; the plain v7 cloud branch passes
no sampling parameters. -/
theorem C9_sampling_params (key : Option String) (omn mru mrm : String) :
    (McpV7.get_model key omn mru mrm).params =
      some ⟨(1 : ℚ)/10, 1000⟩ ∧
    (cloudSelected key = false →
      (AgentV7.get_model key omn mru mrm).params = some ⟨0, 512⟩) ∧
    (cloudSelected key = true →
      (AgentV7.get_model key omn mru mrm).params = none) := by
  refine ⟨?_, ?_, ?_⟩
  · unfold McpV7.get_model
    split <;> rfl
  · intro h; simp [AgentV7.get_model, h]
  · intro h; simp [AgentV7.get_model, h]

/-- Witness for C9 amended at concrete inputs: local branch for an absent
key, cloud branch for a real key. -/
theorem C9_sampling_params_witness :
    (AgentV7.get_model none "gpt-4o-mini" "http://u" "ai/qwen3").params =
      some ⟨0, 512⟩ ∧
    (AgentV7.get_model (some "sk-k") "gpt-4o-mini" "http://u"
      "ai/qwen3").params = none :=
  ⟨(C9_sampling_params none "gpt-4o-mini" "http://u" "ai/qwen3").2.1 rfl,
   (C9_sampling_params (some "sk-k") "gpt-4o-mini" "http://u"
      "ai/qwen3").2.2 rfl⟩

/-- C3: saving twice with the same word leaves exactly one file for that
word, whose final content is exactly the content written by the second
call — each save fully overwrites, never appends or merges; every other
path of the filesystem is untouched.  This holds for all three save
tools. -/
theorem C3_overwrite_semantics (fs : FS) (w d1 d2 p : String) :
    McpV7.save_fs (McpV7.save_fs fs w d1) w d2 p =
      (if p = McpV7.file_path w then some (McpV7.fileContent w d2)
       else fs p) ∧
    AgentV7.save_fs (AgentV7.save_fs fs w d1) w d2 p =
      (if p = AgentV7.file_path w then some (AgentV7.fileContent d2)
       else fs p) ∧
    SimpleAgent.save_fs (SimpleAgent.save_fs fs w d1) w d2 p =
      (if p = SimpleAgent.file_path w then some d2 else fs p) :=
  ⟨writeFile_writeFile fs (McpV7.file_path w) (McpV7.fileContent w d1)
      (McpV7.fileContent w d2) p,
   writeFile_writeFile fs (AgentV7.file_path w) (AgentV7.fileContent d1)
      (AgentV7.fileContent d2) p,
   writeFile_writeFile fs (SimpleAgent.file_path w) d1 d2 p⟩

/-- C4 counterexample: `save_definition` of `agent-docker-v7/agent.py` has
no `try`/`except`, so a filesystem error during the write propagates to the
caller as an exception instead of being returned as a string. -/
theorem C4_counterexample :
    AgentV7.save_definition_run ⟨none, some "Read-only file system"⟩
      "Zorgon" "A fictional creature." =
      Except.error "Read-only file system" := rfl

/-- C4 amended: only the MCP variant's `save_definition` catches filesystem
errors: for every fault pattern it returns normally, and a fault of `mkdir`
or of the write is converted into the formatted error string; the plain v7
variant's `save_definition` propagates the same faults as exceptions. -/
theorem C4_error_containment (f : FsFaults) (word definition e : String) :
    (∃ s, McpV7.save_definition_run f word definition = Except.ok s) ∧
    McpV7.save_definition_run ⟨some e, f.writeErr⟩ word definition =
      Except.ok (McpV7.errorMessage word e) ∧
    McpV7.save_definition_run ⟨none, some e⟩ word definition =
      Except.ok (McpV7.errorMessage word e) ∧
    AgentV7.save_definition_run ⟨some e, f.writeErr⟩ word definition =
      Except.error e ∧
    AgentV7.save_definition_run ⟨none, some e⟩ word definition =
      Except.error e := by
  obtain ⟨me, we⟩ := f
  refine ⟨?_, rfl, rfl, rfl, rfl⟩
  cases me <;> cases we <;> exact ⟨_, rfl⟩

/-- C5 counterexample: the plain v7 `save_definition` writes the file
`Zorgon.txt` but its confirmation string does not contain that filename. -/
theorem C5_counterexample :
    ¬ StrContains (AgentV7.confirmation "Zorgon")
        (AgentV7.fileName "Zorgon") := by
  unfold StrContains
  decide

/-- C5 amended: the MCP variant's confirmation contains the name of the
written file, and `simple_agent`'s confirmation contains the written path
(hence the filename); the plain v7 variant's confirmation contains only the
word — the stem of the written file — not the full filename. -/
theorem C5_confirmation_contents (word filename : String) :
    StrContains (McpV7.confirmation word) (McpV7.fileName word) ∧
    StrContains (SimpleAgent.confirmation filename) filename ∧
    StrContains (AgentV7.confirmation word) word := by
  refine ⟨?_, ?_, ?_⟩
  · exact ⟨("✅ The definition for '" ++ word ++
        "' has been found and saved to ").data,
      ". Mission Completed!".data,
      by simp [McpV7.confirmation, List.append_assoc]⟩
  · unfold SimpleAgent.confirmation SimpleAgent.file_path pyPathJoin
      SimpleAgent.defsDir
    by_cases h : pyIsAbsolute filename = true
    · rw [if_pos h]
      exact ⟨"Saved to ".data, [], by simp⟩
    · rw [if_neg h]
      exact ⟨("Saved to " ++ ("/app/definitions" ++ "/")).data, [],
        by simp [List.append_assoc]⟩
  · exact ⟨"The definition for '".data,
      "' has been found and saved. Mission Completed! Stop".data,
      by simp [AgentV7.confirmation, List.append_assoc]⟩

/-- C6: with a gateway that discovers zero tools, both agents are still
constructed and their tool list is exactly the single locally defined
`save_definition` tool; in general the tool list is the discovered tools
followed by `save_definition`, in that order. -/
theorem C6_empty_gateway_tools (model : OpenAIModelCfg) (q : String)
    (ts : List Tool) :
    (AgentV7.mkAgent model [] q).tools = [Tool.save_definition] ∧
    (McpV7.mkAgent model [] q).tools = [Tool.save_definition] ∧
    (AgentV7.mkAgent model ts q).tools = ts ++ [Tool.save_definition] ∧
    (McpV7.mkAgent model ts q).tools = ts ++ [Tool.save_definition] :=
  ⟨rfl, rfl, rfl, rfl⟩

/-- C7: in every run of the with-block — normal completion or an exception
escaping at any step — the connection is acquired exactly once and
immediately before the single tool-discovery call, the release happens
exactly once and is the last connection-relevant event, and on the normal
path the release follows the single invocation. -/
theorem C7_connection_lifecycle (fp : Option ConnLifecycle.FailAt) :
    (ConnLifecycle.mainTrace fp).take 2 =
      [ConnLifecycle.Ev.acquire, ConnLifecycle.Ev.discover] ∧
    (ConnLifecycle.mainTrace fp).count ConnLifecycle.Ev.acquire = 1 ∧
    (ConnLifecycle.mainTrace fp).count ConnLifecycle.Ev.discover = 1 ∧
    (ConnLifecycle.mainTrace fp).count ConnLifecycle.Ev.release = 1 ∧
    (ConnLifecycle.mainTrace fp).getLast? =
      some ConnLifecycle.Ev.release ∧
    ConnLifecycle.mainTrace none =
      [ConnLifecycle.Ev.acquire, ConnLifecycle.Ev.discover,
       ConnLifecycle.Ev.createAgent, ConnLifecycle.Ev.invoke,
       ConnLifecycle.Ev.release] := by
  rcases fp with _ | f
  · decide
  · cases f <;> decide

/-- C8 counterexample: in the basic v1 variant, a model/transport failure
during the invocation is caught by `except Exception as e: print(...)` and
not re-raised, so nothing reaches the process boundary and the process
exits with status zero — not non-zero as claimed. -/
theorem C8_counterexample :
    BasicV1.main_run
        (some (BasicV1.MainStep.invoke, "Connection refused")) =
      (Except.ok (), true) ∧
    exitStatus (BasicV1.main_run
        (some (BasicV1.MainStep.invoke, "Connection refused"))).1 = 0 :=
  ⟨rfl, rfl⟩

/-- C8 amended: in the MCP v7 variant every failure of `main` is caught,
the hint list is printed and the exception is re-raised, so the process
exits non-zero; in the basic v1 variant failures of model or agent
construction propagate unhandled (non-zero exit), but a failure during the
invocation is caught and printed without re-raising, and the process exits
with status zero. -/
theorem C8_failure_propagation (e : String) (s : McpV7.MainStep)
    (s1 : BasicV1.MainStep) :
    McpV7.main_run (some (s, e)) = (Except.error e, true) ∧
    exitStatus (McpV7.main_run (some (s, e))).1 = 1 ∧
    (s1 ≠ BasicV1.MainStep.invoke →
      BasicV1.main_run (some (s1, e)) = (Except.error e, false) ∧
      exitStatus (BasicV1.main_run (some (s1, e))).1 = 1) ∧
    BasicV1.main_run (some (BasicV1.MainStep.invoke, e)) =
      (Except.ok (), true) ∧
    McpV7.main_run none = (Except.ok (), false) := by
  refine ⟨rfl, rfl, ?_, rfl, rfl⟩
  intro h
  cases s1 with
  | invoke => exact absurd rfl h
  | constructModel => exact ⟨rfl, rfl⟩
  | constructAgent => exact ⟨rfl, rfl⟩

/-- Witness for C8 amended: a construction failure in the basic v1 variant
escapes `main` unhandled. -/
theorem C8_failure_propagation_witness :
    BasicV1.main_run (some (BasicV1.MainStep.constructAgent, "boom")) =
      (Except.error "boom", false) :=
  ((C8_failure_propagation "boom" McpV7.MainStep.invoke
      BasicV1.MainStep.constructAgent).2.2.1 (by decide)).1

/-- C10: `save_file` of `simple_agent.py` and `save_definition` of
`agent-docker-v7/agent.py` apply no sanitization: the written path is the
fixed directory joined verbatim with the caller-supplied name, and a name
with `..` segments makes the written file land outside
`/app/definitions`. -/
theorem C10_path_escape :
    (∀ filename, SimpleAgent.file_path filename =
      pyPathJoin "/app/definitions" filename) ∧
    (∀ word, AgentV7.file_path word =
      pyPathJoin "/app/definitions" (word ++ ".txt")) ∧
    ¬ IsUnder "/app/definitions"
      (SimpleAgent.file_path "../../etc/passwd") ∧
    ¬ IsUnder "/app/definitions" (AgentV7.file_path "../../tmp/evil") := by
  refine ⟨fun _ => rfl, fun _ => rfl, ?_, ?_⟩ <;>
    · unfold IsUnder
      decide

end AgentsOnDocker
